import Mathlib

/-!
Shallow embedding of the conversation turn-taking orchestrator of
`ai-bot-friendly-talk` (the `useChatService` hook in chatService.ts and the
service classes it drives: DeepgramService, OpenAIService, ElevenLabsService).

The orchestrator runs on a single-threaded cooperative scheduler; each
`processUserMessage` invocation is embedded as one atomic transition that is
parameterised by the outcome of its two external awaits: the Completion Client
result (`CompletionResult`) and, when speech output is launched, how the
in-flight playback ends (`SpeakFinish` — naturally, or cancelled because the
user muted during playback; the Web Speech API fires exactly one terminal
`end`/`error` event per utterance, and ElevenLabsService invokes the turn's
`onComplete` from either handler, which is why a turn's playback has exactly
one finish).  Each transition returns the successor state together with the
ordered trace of observable actions (caller notifications and adapter calls)
that the invocation performs.
-/

/-- A conversation entry of role and content; roles are the literal strings
`"system"` / `"user"` / `"assistant"` used by the source. -/
structure ChatMessage where
  role : String
  content : String
deriving DecidableEq, Repr

/-- The state of `DeepgramService.mediaRecorder` (a browser `MediaRecorder`):
`inactive`, `recording`, or `paused`. -/
inductive RecorderState
  | inactive
  | recording
  | paused
deriving DecidableEq, Repr

/-- Embeds `DeepgramService.pauseListening`: pauses the recorder only when it is
currently recording. -/
def pauseListening (r : RecorderState) : RecorderState :=
  if r = RecorderState.recording then RecorderState.paused else r

/-- Embeds `DeepgramService.resumeListening`: resumes the recorder only when it is
currently paused. -/
def resumeListening (r : RecorderState) : RecorderState :=
  if r = RecorderState.paused then RecorderState.recording else r

/-- Observable actions of one orchestrator operation, in execution order:
caller notifications (`onUserMessage`, `onResponse`, `onSpeakingComplete`)
and adapter calls (`speakStart` = `elevenlabs.speak` invoked, `cancelSpeech` =
`elevenlabs.cleanup()`/`speechSynthesis.cancel()`, `resumeCapture` =
`deepgram.resumeListening()` invoked, `autoStartListening` = the greeting's
deferred `startListening`). -/
inductive Event
  | onUserMessage (text : String)
  | onResponse (text : String)
  | onSpeakingComplete
  | speakStart (text : String)
  | cancelSpeech
  | resumeCapture
  | autoStartListening
deriving DecidableEq, Repr

/-- Outcome of the single `openai.getResponse` attempt of a turn: a reply
string, or a thrown ServiceError. -/
inductive CompletionResult
  | ok (reply : String)
  | err
deriving DecidableEq, Repr

/-- How an in-flight speech playback ends: naturally (utterance `onend`), or
cancelled because `muteAudio` ran during playback (`cleanup()` → `cancel()`,
after which the utterance's terminal event still fires `onComplete` once). -/
inductive SpeakFinish
  | natural
  | cancelledByMute
deriving DecidableEq, Repr

/-- The mutable state owned by one `useChatService` session: the conversation
history, the mute flag, the in-flight guard `processingRef`, the duplicate key
`lastProcessedMessageRef`, `isListeningRef`, the surfaced error, and the
projection of DeepgramService's recorder and accumulated transcript. -/
structure ChatState where
  conversationHistory : List ChatMessage
  isMuted : Bool
  processing : Bool
  lastProcessedMessage : String
  isListening : Bool
  error : Option String
  recorder : RecorderState
  currentTranscript : String
deriving DecidableEq, Repr

/-- JavaScript `String.prototype.trim()`: strip whitespace from both ends,
embedded structurally over the character list so it evaluates in the kernel. -/
def jsTrim (s : String) : String :=
  String.mk (((s.data.dropWhile Char.isWhitespace).reverse.dropWhile
    Char.isWhitespace).reverse)

/-- JavaScript `String.prototype.toLowerCase()`, embedded over the character
list. -/
def jsToLower (s : String) : String :=
  String.mk (s.data.map Char.toLower)

/-- The duplicate key: `const messageKey = message.trim().toLowerCase()`. -/
def messageKeyOf (message : String) : String :=
  jsToLower (jsTrim message)

/-- The assistant-append updater inside `processUserMessage`: skip the append
when the last history entry is an assistant entry with identical content,
otherwise append the reply as an assistant entry. -/
def appendAssistant (history : List ChatMessage) (reply : String) : List ChatMessage :=
  match history.getLast? with
  | some lastMessage =>
      if lastMessage.role = "assistant" ∧ lastMessage.content = reply then history
      else history ++ [⟨"assistant", reply⟩]
  | none => history ++ [⟨"assistant", reply⟩]

/-- The `finally` block of `processUserMessage`: when `isListeningRef` is set,
call `deepgram.resumeListening()`. -/
def finallyResume (s : ChatState) : ChatState × List Event :=
  if s.isListening then
    ({ s with recorder := resumeListening s.recorder }, [Event.resumeCapture])
  else (s, [])

/-- Embeds `processUserMessage(message)`, with the two awaited externals supplied as
parameters.  Guard order as in the source: empty/whitespace input, then the
in-flight guard `processingRef`, then the duplicate key
`lastProcessedMessageRef`.  On acceptance: set the guard and the key, notify
`onUserMessage` (the callback is registered by the component), append the user
entry, run the completion; on a non-empty reply append the assistant entry
(with the duplicate-reply check), notify `onResponse`, then either speak or —
when muted — complete immediately; `processingRef` is cleared in every
terminating branch and the `finally` block resumes capture when listening.
In the unmuted branch the `await` of `speak` resolves when playback is
launched, so the `finally` resume runs before the playback's completion
callback fires `onSpeakingComplete`. -/
def processUserMessage (s : ChatState) (message : String)
    (result : CompletionResult) (finish : SpeakFinish) : ChatState × List Event :=
  if jsTrim message = "" then (s, [])
  else if s.processing then (s, [])
  else if s.lastProcessedMessage = messageKeyOf message then (s, [])
  else
    let s1 : ChatState :=
      { s with processing := true, lastProcessedMessage := messageKeyOf message,
               conversationHistory := s.conversationHistory ++ [⟨"user", jsTrim message⟩] }
    match result with
    | CompletionResult.err =>
        let s2 : ChatState :=
          { s1 with error := some "Failed to get AI response", processing := false }
        let (s3, fev) := finallyResume s2
        (s3, [Event.onUserMessage (jsTrim message)] ++ fev)
    | CompletionResult.ok reply =>
        if reply = "" then
          let s2 : ChatState := { s1 with processing := false }
          let (s3, fev) := finallyResume s2
          (s3, [Event.onUserMessage (jsTrim message)] ++ fev)
        else
          let s2 : ChatState :=
            { s1 with conversationHistory := appendAssistant s1.conversationHistory reply }
          if s2.isMuted then
            let s3 : ChatState := { s2 with processing := false }
            let (s4, fev) := finallyResume s3
            (s4, [Event.onUserMessage (jsTrim message), Event.onResponse reply,
                  Event.onSpeakingComplete] ++ fev)
          else
            match finish with
            | SpeakFinish.natural =>
                let s3 : ChatState := { s2 with processing := false }
                let (s4, fev) := finallyResume s3
                (s4, [Event.onUserMessage (jsTrim message), Event.onResponse reply,
                      Event.speakStart reply] ++ fev ++ [Event.onSpeakingComplete])
            | SpeakFinish.cancelledByMute =>
                let s3 : ChatState := { s2 with isMuted := true, processing := false }
                let (s4, fev) := finallyResume s3
                (s4, [Event.onUserMessage (jsTrim message), Event.onResponse reply,
                      Event.speakStart reply] ++ fev ++
                     [Event.cancelSpeech, Event.onSpeakingComplete])

/-- A submission passes all three guards of `processUserMessage`. -/
def accepts (s : ChatState) (message : String) : Prop :=
  jsTrim message ≠ "" ∧ s.processing = false ∧
    s.lastProcessedMessage ≠ messageKeyOf message

instance (s : ChatState) (message : String) : Decidable (accepts s message) := by
  unfold accepts; infer_instance

/-- The system prompt built by the initialization effect of `useChatService`
from the user identity. -/
def systemPrompt (userName userGender : String) : String :=
  "You are a friendly AI companion who speaks naturally and casually, just like a real friend. The user's name is " ++ userName ++ " and they are " ++ userGender ++ ".

Your personality traits:
- Warm, enthusiastic, and genuinely interested in conversations
- Use casual language and contractions (like \"I'm\", \"you're\", \"that's\")
- Show empathy and emotional intelligence
- Occasionally use friendly expressions like \"Oh!\", \"Wow!\", \"That's awesome!\", \"I see!\"
- Keep responses concise and conversational (2-3 sentences usually)
- Ask follow-up questions to keep the conversation flowing
- Be supportive and encouraging
- Use natural speech patterns with occasional filler words when appropriate
- React naturally to what the user says
- Remember context from earlier in the conversation
- Always address the user by their name: " ++ userName ++ "

Speak as if you're chatting with a close friend over coffee. Be genuine, relatable, and fun to talk to!"

/-- Session start: the mount-time effect of `useChatService` runs exactly once
per session (its dependencies, the user identity, are fixed at construction)
and sets the conversation history to the single system entry; all refs start
cleared, the recorder inactive. -/
def sessionInit (userName userGender : String) : ChatState :=
  { conversationHistory := [⟨"system", systemPrompt userName userGender⟩],
    isMuted := false, processing := false, lastProcessedMessage := "",
    isListening := false, error := none, recorder := RecorderState.inactive,
    currentTranscript := "" }

/-- Embeds `startListening` (happy path): no-op when `isListeningRef` is already set;
otherwise `deepgram.startListening` clears the accumulated transcript, returns
early when the recorder is already recording, else starts a fresh recorder;
then `isListeningRef` is set. -/
def startListening (s : ChatState) : ChatState :=
  if s.isListening then s
  else
    if s.recorder = RecorderState.recording then
      { s with currentTranscript := "", isListening := true }
    else
      { s with currentTranscript := "", recorder := RecorderState.recording,
               isListening := true }

/-- Embeds `stopListening`: returns `""` without touching anything when not
listening; otherwise stops the recorder, clears and returns the accumulated
transcript, and clears `isListeningRef`. -/
def stopListening (s : ChatState) : ChatState × String :=
  if s.isListening then
    ({ s with recorder := RecorderState.inactive, currentTranscript := "",
              isListening := false }, s.currentTranscript)
  else (s, "")

/-- Embeds `muteAudio`: sets the mute flag and calls `elevenlabs.cleanup()`, which
cancels any in-flight speech synthesis. -/
def muteAudio (s : ChatState) : ChatState × List Event :=
  ({ s with isMuted := true }, [Event.cancelSpeech])

/-- Embeds `unmuteAudio`: clears the mute flag only. -/
def unmuteAudio (s : ChatState) : ChatState × List Event :=
  ({ s with isMuted := false }, [])

/-- The canned greeting of `sendInitialGreeting`. -/
def greetingMessage (userName : String) : String :=
  "Hi " ++ userName ++ ", how are you?"

/-- The fallback system entry `sendInitialGreeting` supplies when it finds the
history still empty. -/
def fallbackSystemPrompt (userName : String) : String :=
  "You are a friendly AI companion. The user's name is " ++ userName ++ "."

/-- Embeds `sendInitialGreeting`: appends the canned greeting as an assistant entry
(installing a fallback system entry first when the history is still empty),
notifies `onResponse`, speaks unless muted, and on completion auto-starts
listening.  As in `processUserMessage`, `finish` says how an unmuted playback
ends. -/
def sendInitialGreeting (s : ChatState) (userName : String)
    (finish : SpeakFinish) : ChatState × List Event :=
  let greeting := greetingMessage userName
  let current :=
    if 0 < s.conversationHistory.length then s.conversationHistory
    else [⟨"system", fallbackSystemPrompt userName⟩]
  let s1 : ChatState :=
    { s with conversationHistory := current ++ [⟨"assistant", greeting⟩] }
  if s1.isMuted then
    (startListening s1,
     [Event.onResponse greeting, Event.onSpeakingComplete, Event.autoStartListening])
  else
    match finish with
    | SpeakFinish.natural =>
        (startListening s1,
         [Event.onResponse greeting, Event.speakStart greeting,
          Event.onSpeakingComplete, Event.autoStartListening])
    | SpeakFinish.cancelledByMute =>
        (startListening { s1 with isMuted := true },
         [Event.onResponse greeting, Event.speakStart greeting, Event.cancelSpeech,
          Event.onSpeakingComplete, Event.autoStartListening])

/-!
`initializeIfNeeded` caches a single shared promise for the underlying
`deepgram.initialize()` attempt.  We embed its interleavings as a small-step
machine: a `call` step is the synchronous prefix of one caller's invocation
(the `isInitializedRef` check and the promise-ref check-and-set happen without
a suspension point in between), and a `settle` step is the settlement of the
pending underlying attempt, which runs the `.then`/`.catch` handler and
resumes every caller awaiting that promise.  After a successful settlement
the resolved promise is kept in the ref, but every later caller returns at
the `isInitializedRef` check, so `pendingAttempt = none ∧ isInitialized`
represents that situation faithfully.
-/

/-- State of the lazy-initialization coordinator: `isInitializedRef`, the
identity of the unsettled cached attempt (if any), the `isConnected` signal,
the surfaced error, how many underlying `deepgram.initialize()` calls were
made, which callers are awaiting the pending attempt, and the outcome each
finished caller observed. -/
structure InitState where
  isInitialized : Bool
  pendingAttempt : Option Nat
  isConnected : Bool
  initError : Option String
  attemptCount : Nat
  waiting : List Nat
  observed : List (Nat × Bool)
deriving DecidableEq, Repr

/-- The coordinator before any call. -/
def initState0 : InitState :=
  { isInitialized := false, pendingAttempt := none, isConnected := false,
    initError := none, attemptCount := 0, waiting := [], observed := [] }

/-- One scheduler step of the initialization machine: caller `c` enters
`initializeIfNeeded`, or the pending underlying attempt settles with outcome
`ok`. -/
inductive InitStep
  | call (c : Nat)
  | settle (ok : Bool)
deriving DecidableEq, Repr

/-- Transition of `initializeIfNeeded`.  A caller returns at once when already
initialized; otherwise it awaits the cached promise, creating it — the one
underlying `deepgram.initialize()` attempt — only when no promise is cached.
Settlement runs the success handler (set `isInitializedRef`, signal
connected) or the failure handler (surface the error, null out the promise
ref so a later call retries), and every waiter observes that same outcome. -/
def initStep (s : InitState) : InitStep → InitState
  | InitStep.call c =>
      if s.isInitialized then { s with observed := s.observed ++ [(c, true)] }
      else
        match s.pendingAttempt with
        | some _ => { s with waiting := s.waiting ++ [c] }
        | none =>
            { s with pendingAttempt := some s.attemptCount,
                     attemptCount := s.attemptCount + 1,
                     waiting := s.waiting ++ [c] }
  | InitStep.settle ok =>
      match s.pendingAttempt with
      | none => s
      | some _ =>
          if ok then
            { s with isInitialized := true, isConnected := true,
                     pendingAttempt := none, waiting := [],
                     observed := s.observed ++ s.waiting.map (fun c => (c, true)) }
          else
            { s with pendingAttempt := none,
                     initError := some "Failed to connect to speech services",
                     waiting := [],
                     observed := s.observed ++ s.waiting.map (fun c => (c, false)) }

/-- Run a sequence of initialization steps. -/
def initRun (s : InitState) (steps : List InitStep) : InitState :=
  steps.foldl initStep s

/-- A concrete mid-session state used to exercise the theorems: listening is
active, the recorder is recording, no turn is in flight. -/
def baseState : ChatState :=
  { conversationHistory := [⟨"system", "prompt"⟩], isMuted := false,
    processing := false, lastProcessedMessage := "", isListening := true,
    error := none, recorder := RecorderState.recording, currentTranscript := "" }

/-- A copy of `baseState` with a turn currently in flight (`processingRef` set). -/
def busyState : ChatState :=
  { baseState with processing := true }

section Lemmas

/-- Appending an assistant reply right after the just-appended user entry
always appends: the last entry has role `"user"`, so the duplicate-reply
check cannot fire. -/
theorem appendAssistant_after_user (h : List ChatMessage) (t reply : String) :
    appendAssistant (h ++ [⟨"user", t⟩]) reply
      = h ++ [⟨"user", t⟩, ⟨"assistant", reply⟩] := by
  have hlast : (h ++ [(⟨"user", t⟩ : ChatMessage)]).getLast? = some ⟨"user", t⟩ :=
    List.getLast?_concat _
  simp [appendAssistant, hlast]

/-- Closed form of a rejected submission: any guard failure is a pure no-op. -/
theorem pum_noop (s : ChatState) (m : String) (r : CompletionResult)
    (f : SpeakFinish) (h : ¬ accepts s m) :
    processUserMessage s m r f = (s, []) := by
  unfold accepts at h
  push_neg at h
  by_cases h1 : jsTrim m = ""
  · simp [processUserMessage, h1]
  · by_cases h2 : s.processing = true
    · simp [processUserMessage, h1, h2]
    · have h2' : s.processing = false := by simpa using h2
      have h3 := h h1 h2'
      simp [processUserMessage, h1, h2', h3]

/-- Closed form of an accepted turn whose completion call throws. -/
theorem pum_err_eq (s : ChatState) (m : String) (f : SpeakFinish)
    (h1 : jsTrim m ≠ "") (h2 : s.processing = false)
    (h3 : s.lastProcessedMessage ≠ messageKeyOf m) :
    processUserMessage s m CompletionResult.err f =
      ({ s with conversationHistory := s.conversationHistory ++ [⟨"user", jsTrim m⟩],
                lastProcessedMessage := messageKeyOf m, processing := false,
                error := some "Failed to get AI response",
                recorder := if s.isListening then resumeListening s.recorder
                            else s.recorder },
       [Event.onUserMessage (jsTrim m)]
         ++ if s.isListening then [Event.resumeCapture] else []) := by
  by_cases hl : s.isListening <;>
    simp [processUserMessage, finallyResume, h1, h2, h3, hl]

/-- Closed form of an accepted turn whose completion returns the empty
reply. -/
theorem pum_ok_empty_eq (s : ChatState) (m : String) (f : SpeakFinish)
    (h1 : jsTrim m ≠ "") (h2 : s.processing = false)
    (h3 : s.lastProcessedMessage ≠ messageKeyOf m) :
    processUserMessage s m (CompletionResult.ok "") f =
      ({ s with conversationHistory := s.conversationHistory ++ [⟨"user", jsTrim m⟩],
                lastProcessedMessage := messageKeyOf m, processing := false,
                recorder := if s.isListening then resumeListening s.recorder
                            else s.recorder },
       [Event.onUserMessage (jsTrim m)]
         ++ if s.isListening then [Event.resumeCapture] else []) := by
  by_cases hl : s.isListening <;>
    simp [processUserMessage, finallyResume, h1, h2, h3, hl]

/-- Closed form of an accepted muted turn with a non-empty reply. -/
theorem pum_ok_muted_eq (s : ChatState) (m reply : String) (f : SpeakFinish)
    (h1 : jsTrim m ≠ "") (h2 : s.processing = false)
    (h3 : s.lastProcessedMessage ≠ messageKeyOf m) (hr : reply ≠ "")
    (hm : s.isMuted = true) :
    processUserMessage s m (CompletionResult.ok reply) f =
      ({ s with conversationHistory := s.conversationHistory
                  ++ [⟨"user", jsTrim m⟩, ⟨"assistant", reply⟩],
                lastProcessedMessage := messageKeyOf m, processing := false,
                recorder := if s.isListening then resumeListening s.recorder
                            else s.recorder },
       [Event.onUserMessage (jsTrim m), Event.onResponse reply,
        Event.onSpeakingComplete]
         ++ if s.isListening then [Event.resumeCapture] else []) := by
  by_cases hl : s.isListening <;>
    simp [processUserMessage, finallyResume, appendAssistant_after_user,
      h1, h2, h3, hr, hm, hl]

/-- Closed form of an accepted unmuted turn with a non-empty reply whose
playback completes naturally. -/
theorem pum_ok_natural_eq (s : ChatState) (m reply : String)
    (h1 : jsTrim m ≠ "") (h2 : s.processing = false)
    (h3 : s.lastProcessedMessage ≠ messageKeyOf m) (hr : reply ≠ "")
    (hm : s.isMuted = false) :
    processUserMessage s m (CompletionResult.ok reply) SpeakFinish.natural =
      ({ s with conversationHistory := s.conversationHistory
                  ++ [⟨"user", jsTrim m⟩, ⟨"assistant", reply⟩],
                lastProcessedMessage := messageKeyOf m, processing := false,
                recorder := if s.isListening then resumeListening s.recorder
                            else s.recorder },
       [Event.onUserMessage (jsTrim m), Event.onResponse reply,
        Event.speakStart reply]
         ++ (if s.isListening then [Event.resumeCapture] else [])
         ++ [Event.onSpeakingComplete]) := by
  by_cases hl : s.isListening <;>
    simp [processUserMessage, finallyResume, appendAssistant_after_user,
      h1, h2, h3, hr, hm, hl]

/-- Closed form of an accepted unmuted turn with a non-empty reply whose
playback is cancelled by a mute during speaking. -/
theorem pum_ok_cancel_eq (s : ChatState) (m reply : String)
    (h1 : jsTrim m ≠ "") (h2 : s.processing = false)
    (h3 : s.lastProcessedMessage ≠ messageKeyOf m) (hr : reply ≠ "")
    (hm : s.isMuted = false) :
    processUserMessage s m (CompletionResult.ok reply) SpeakFinish.cancelledByMute =
      ({ s with conversationHistory := s.conversationHistory
                  ++ [⟨"user", jsTrim m⟩, ⟨"assistant", reply⟩],
                lastProcessedMessage := messageKeyOf m, processing := false,
                isMuted := true,
                recorder := if s.isListening then resumeListening s.recorder
                            else s.recorder },
       [Event.onUserMessage (jsTrim m), Event.onResponse reply,
        Event.speakStart reply]
         ++ (if s.isListening then [Event.resumeCapture] else [])
         ++ [Event.cancelSpeech, Event.onSpeakingComplete]) := by
  by_cases hl : s.isListening <;>
    simp [processUserMessage, finallyResume, appendAssistant_after_user,
      h1, h2, h3, hr, hm, hl]

/-- After any accepted turn, whatever the completion outcome and however
playback ends: the in-flight guard is cleared, the duplicate key holds the
turn's normalized input, and the listening flag is untouched. -/
theorem pum_final_flags (s : ChatState) (m : String) (r : CompletionResult)
    (f : SpeakFinish) (h1 : jsTrim m ≠ "") (h2 : s.processing = false)
    (h3 : s.lastProcessedMessage ≠ messageKeyOf m) :
    (processUserMessage s m r f).1.processing = false ∧
    (processUserMessage s m r f).1.lastProcessedMessage = messageKeyOf m ∧
    (processUserMessage s m r f).1.isListening = s.isListening := by
  cases r with
  | err =>
      rw [pum_err_eq s m f h1 h2 h3]
      exact ⟨rfl, rfl, rfl⟩
  | ok reply =>
      by_cases he : reply = ""
      · subst he
        rw [pum_ok_empty_eq s m f h1 h2 h3]
        exact ⟨rfl, rfl, rfl⟩
      · by_cases hm : s.isMuted = true
        · rw [pum_ok_muted_eq s m reply f h1 h2 h3 he hm]
          exact ⟨rfl, rfl, rfl⟩
        · have hm' : s.isMuted = false := by simpa using hm
          cases f with
          | natural =>
              rw [pum_ok_natural_eq s m reply h1 h2 h3 he hm']
              exact ⟨rfl, rfl, rfl⟩
          | cancelledByMute =>
              rw [pum_ok_cancel_eq s m reply h1 h2 h3 he hm']
              exact ⟨rfl, rfl, rfl⟩

/-- Every orchestrator turn only ever appends to the conversation history:
the prior history is a prefix of the resulting history. -/
theorem pum_history_extends (s : ChatState) (m : String) (r : CompletionResult)
    (f : SpeakFinish) :
    s.conversationHistory <+: (processUserMessage s m r f).1.conversationHistory := by
  by_cases hacc : accepts s m
  · obtain ⟨h1, h2, h3⟩ := hacc
    cases r with
    | err =>
        rw [pum_err_eq s m f h1 h2 h3]
        exact ⟨[⟨"user", jsTrim m⟩], rfl⟩
    | ok reply =>
        by_cases he : reply = ""
        · subst he
          rw [pum_ok_empty_eq s m f h1 h2 h3]
          exact ⟨[⟨"user", jsTrim m⟩], rfl⟩
        · by_cases hm : s.isMuted = true
          · rw [pum_ok_muted_eq s m reply f h1 h2 h3 he hm]
            exact ⟨[⟨"user", jsTrim m⟩, ⟨"assistant", reply⟩], rfl⟩
          · have hm' : s.isMuted = false := by simpa using hm
            cases f with
            | natural =>
                rw [pum_ok_natural_eq s m reply h1 h2 h3 he hm']
                exact ⟨[⟨"user", jsTrim m⟩, ⟨"assistant", reply⟩], rfl⟩
            | cancelledByMute =>
                rw [pum_ok_cancel_eq s m reply h1 h2 h3 he hm']
                exact ⟨[⟨"user", jsTrim m⟩, ⟨"assistant", reply⟩], rfl⟩
  · rw [pum_noop s m r f hacc]

/-- The `startListening` command never touches the conversation history. -/
theorem startListening_history (s : ChatState) :
    (startListening s).conversationHistory = s.conversationHistory := by
  unfold startListening
  by_cases h : s.isListening <;>
    by_cases h2 : s.recorder = RecorderState.recording <;> simp [h, h2]

/-- A nonempty prefix pins down the head of the longer list. -/
theorem head?_eq_of_isPrefix {l l' : List ChatMessage} (h : l <+: l') (hne : l ≠ []) :
    l'.head? = l.head? := by
  obtain ⟨t, rfl⟩ := h
  cases l with
  | nil => exact absurd rfl hne
  | cons a l => rfl

end Lemmas

/-- C1: while a previously accepted turn's in-flight guard (`processingRef`)
is still set — the turn is PROCESSING or SPEAKING — any further
`processUserMessage` call is a no-op: conversation history, the duplicate
key and all other state are returned unchanged and no notification or
adapter call is emitted, so at most one turn is ever in flight. -/
theorem inflight_guard_rejects_reentrant_submit
    (s : ChatState) (m : String) (r : CompletionResult) (f : SpeakFinish)
    (h : s.processing = true) :
    processUserMessage s m r f = (s, []) :=
  pum_noop s m r f (fun hacc => by rw [hacc.2.1] at h; exact Bool.false_ne_true h)

theorem inflight_guard_rejects_reentrant_submit_witness :
    processUserMessage busyState "hello"
      (CompletionResult.ok "Hi!") SpeakFinish.natural = (busyState, []) :=
  inflight_guard_rejects_reentrant_submit busyState "hello"
    (CompletionResult.ok "Hi!") SpeakFinish.natural rfl

/-- C2: duplicate suppression compares only against the immediately preceding
accepted turn's normalized key: the first submission of `a` is accepted; an
immediate resubmission with the same normalized key is a pure no-op
(processed exactly once); after an intervening accepted distinct utterance
`b` the key has been overwritten, so `a` is accepted again — `a`, `b`, `a`
are all processed. -/
theorem duplicate_suppression_immediate_repeat_only
    (s : ChatState) (a a2 b : String)
    (r1 r2 rdup : CompletionResult) (f1 f2 fdup : SpeakFinish)
    (ha : jsTrim a ≠ "") (hb : jsTrim b ≠ "")
    (hp : s.processing = false)
    (hk : s.lastProcessedMessage ≠ messageKeyOf a)
    (ha2 : messageKeyOf a2 = messageKeyOf a)
    (hab : messageKeyOf a ≠ messageKeyOf b) :
    accepts s a ∧
    processUserMessage (processUserMessage s a r1 f1).1 a2 rdup fdup
      = ((processUserMessage s a r1 f1).1, []) ∧
    accepts (processUserMessage s a r1 f1).1 b ∧
    accepts (processUserMessage (processUserMessage s a r1 f1).1 b r2 f2).1 a := by
  obtain ⟨hp1, hk1, -⟩ := pum_final_flags s a r1 f1 ha hp hk
  refine ⟨⟨ha, hp, hk⟩, ?_, ⟨hb, hp1, by rw [hk1]; exact hab⟩, ?_⟩
  · exact pum_noop _ a2 rdup fdup (fun hacc => hacc.2.2 (by rw [hk1, ha2]))
  · obtain ⟨hp2, hk2, -⟩ :=
      pum_final_flags _ b r2 f2 hb hp1 (by rw [hk1]; exact hab)
    exact ⟨ha, hp2, by rw [hk2]; exact hab.symm⟩

theorem duplicate_suppression_immediate_repeat_only_witness :
    accepts baseState "Hello" ∧
    processUserMessage
        (processUserMessage baseState "Hello" (CompletionResult.ok "Hi!")
          SpeakFinish.natural).1 "  HELLO "
        (CompletionResult.ok "again") SpeakFinish.natural
      = ((processUserMessage baseState "Hello" (CompletionResult.ok "Hi!")
            SpeakFinish.natural).1, []) ∧
    accepts (processUserMessage baseState "Hello" (CompletionResult.ok "Hi!")
        SpeakFinish.natural).1 "bye" ∧
    accepts (processUserMessage
        (processUserMessage baseState "Hello" (CompletionResult.ok "Hi!")
          SpeakFinish.natural).1 "bye"
        (CompletionResult.ok "ok") SpeakFinish.natural).1 "Hello" :=
  duplicate_suppression_immediate_repeat_only baseState "Hello" "  HELLO " "bye"
    (CompletionResult.ok "Hi!") (CompletionResult.ok "ok") (CompletionResult.ok "again")
    SpeakFinish.natural SpeakFinish.natural SpeakFinish.natural
    (by decide) (by decide) rfl (by decide) (by decide) (by decide)

/-- C4: when the Completion Client throws on an accepted turn, history grows
by exactly the user entry, the recoverable error notification surfaces, the
in-flight guard is released, capture resumption is invoked exactly when
listening was active (a recording recorder stays recording), and the session
stays usable: any later distinct non-empty utterance is accepted. -/
theorem completion_failure_recovers
    (s : ChatState) (m : String) (f : SpeakFinish)
    (h1 : jsTrim m ≠ "") (h2 : s.processing = false)
    (h3 : s.lastProcessedMessage ≠ messageKeyOf m) :
    (processUserMessage s m CompletionResult.err f).1.conversationHistory
      = s.conversationHistory ++ [⟨"user", jsTrim m⟩] ∧
    (processUserMessage s m CompletionResult.err f).1.error
      = some "Failed to get AI response" ∧
    (processUserMessage s m CompletionResult.err f).1.processing = false ∧
    (Event.resumeCapture ∈ (processUserMessage s m CompletionResult.err f).2
      ↔ s.isListening = true) ∧
    (s.isListening = true → s.recorder = RecorderState.recording →
      (processUserMessage s m CompletionResult.err f).1.recorder
        = RecorderState.recording) ∧
    (∀ m2, jsTrim m2 ≠ "" → messageKeyOf m2 ≠ messageKeyOf m →
      accepts (processUserMessage s m CompletionResult.err f).1 m2) := by
  rw [pum_err_eq s m f h1 h2 h3]
  refine ⟨rfl, rfl, rfl, ?_, ?_, ?_⟩
  · by_cases hl : s.isListening <;> simp [hl]
  · intro hl hr
    simp [hl, hr, resumeListening]
  · intro m2 hm2 hk2
    exact ⟨hm2, rfl, hk2.symm⟩

theorem completion_failure_recovers_witness :
    (processUserMessage baseState "hi" CompletionResult.err
        SpeakFinish.natural).1.conversationHistory
      = baseState.conversationHistory ++ [⟨"user", "hi"⟩] ∧
    (processUserMessage baseState "hi" CompletionResult.err
        SpeakFinish.natural).1.error = some "Failed to get AI response" ∧
    accepts (processUserMessage baseState "hi" CompletionResult.err
        SpeakFinish.natural).1 "bye" :=
  ⟨(completion_failure_recovers baseState "hi" SpeakFinish.natural
      (by decide) rfl (by decide)).1,
   (completion_failure_recovers baseState "hi" SpeakFinish.natural
      (by decide) rfl (by decide)).2.1,
   (completion_failure_recovers baseState "hi" SpeakFinish.natural
      (by decide) rfl (by decide)).2.2.2.2.2 "bye" (by decide) (by decide)⟩

/-- C9: when the completion succeeds with an empty reply on an accepted turn,
the turn ends silently: history grows by exactly the user entry, no response
notification, no turn-completion notification and no speech-adapter call
occur, yet the in-flight guard is released and capture resumption is invoked
exactly when listening was active — the session is not stuck. -/
theorem empty_reply_silent_turn
    (s : ChatState) (m : String) (f : SpeakFinish)
    (h1 : jsTrim m ≠ "") (h2 : s.processing = false)
    (h3 : s.lastProcessedMessage ≠ messageKeyOf m) :
    (processUserMessage s m (CompletionResult.ok "") f).1.conversationHistory
      = s.conversationHistory ++ [⟨"user", jsTrim m⟩] ∧
    (processUserMessage s m (CompletionResult.ok "") f).2
      = [Event.onUserMessage (jsTrim m)]
          ++ (if s.isListening then [Event.resumeCapture] else []) ∧
    (processUserMessage s m (CompletionResult.ok "") f).1.processing = false ∧
    (∀ t, Event.onResponse t ∉ (processUserMessage s m (CompletionResult.ok "") f).2) ∧
    Event.onSpeakingComplete ∉ (processUserMessage s m (CompletionResult.ok "") f).2 ∧
    (∀ t, Event.speakStart t ∉ (processUserMessage s m (CompletionResult.ok "") f).2) ∧
    (Event.resumeCapture ∈ (processUserMessage s m (CompletionResult.ok "") f).2
      ↔ s.isListening = true) := by
  rw [pum_ok_empty_eq s m f h1 h2 h3]
  refine ⟨rfl, rfl, rfl, ?_, ?_, ?_, ?_⟩ <;>
    (by_cases hl : s.isListening <;> simp [hl])

theorem empty_reply_silent_turn_witness :
    (processUserMessage baseState "hi" (CompletionResult.ok "")
        SpeakFinish.natural).1.conversationHistory
      = baseState.conversationHistory ++ [⟨"user", "hi"⟩] ∧
    (processUserMessage baseState "hi" (CompletionResult.ok "")
        SpeakFinish.natural).1.processing = false ∧
    Event.onSpeakingComplete ∉
      (processUserMessage baseState "hi" (CompletionResult.ok "")
        SpeakFinish.natural).2 :=
  ⟨(empty_reply_silent_turn baseState "hi" SpeakFinish.natural
      (by decide) rfl (by decide)).1,
   (empty_reply_silent_turn baseState "hi" SpeakFinish.natural
      (by decide) rfl (by decide)).2.2.1,
   (empty_reply_silent_turn baseState "hi" SpeakFinish.natural
      (by decide) rfl (by decide)).2.2.2.2.1⟩

/-- C10: the duplicate key is written at acceptance and survives a completion
failure: after an accepted turn for `m` fails, any immediate resubmission
with the same normalized key is a pure no-op (no retry by repetition), while
any distinct non-empty utterance is accepted. -/
theorem duplicate_key_persists_after_failure
    (s : ChatState) (m m2 : String) (f f2 : SpeakFinish) (r2 : CompletionResult)
    (h1 : jsTrim m ≠ "") (h2 : s.processing = false)
    (h3 : s.lastProcessedMessage ≠ messageKeyOf m)
    (hkey : messageKeyOf m2 = messageKeyOf m) :
    processUserMessage (processUserMessage s m CompletionResult.err f).1 m2 r2 f2
      = ((processUserMessage s m CompletionResult.err f).1, []) ∧
    (∀ m3, jsTrim m3 ≠ "" → messageKeyOf m3 ≠ messageKeyOf m →
       accepts (processUserMessage s m CompletionResult.err f).1 m3) := by
  obtain ⟨hp1, hk1, -⟩ := pum_final_flags s m CompletionResult.err f h1 h2 h3
  constructor
  · exact pum_noop _ m2 r2 f2 (fun hacc => hacc.2.2 (by rw [hk1, hkey]))
  · intro m3 hm3 hk3
    exact ⟨hm3, hp1, by rw [hk1]; exact hk3.symm⟩

theorem duplicate_key_persists_after_failure_witness :
    processUserMessage
        (processUserMessage baseState "Hello" CompletionResult.err
          SpeakFinish.natural).1 "hello"
        (CompletionResult.ok "Hi!") SpeakFinish.natural
      = ((processUserMessage baseState "Hello" CompletionResult.err
            SpeakFinish.natural).1, []) ∧
    accepts (processUserMessage baseState "Hello" CompletionResult.err
        SpeakFinish.natural).1 "bye" :=
  ⟨(duplicate_key_persists_after_failure baseState "Hello" "hello"
      SpeakFinish.natural SpeakFinish.natural (CompletionResult.ok "Hi!")
      (by decide) rfl (by decide) (by decide)).1,
   (duplicate_key_persists_after_failure baseState "Hello" "hello"
      SpeakFinish.natural SpeakFinish.natural (CompletionResult.ok "Hi!")
      (by decide) rfl (by decide) (by decide)).2 "bye" (by decide) (by decide)⟩

/-- C5: the mute flag affects only speech output, never the assistant-message
notification: whatever the mute flag, an accepted turn with a non-empty reply
emits `onResponse`; a muted turn performs no speech-adapter call and emits
the turn completion immediately after the response notification; and a mute
during speaking cancels the in-flight playback while the turn completion is
still emitted exactly once (as it is for natural completion). -/
theorem mute_affects_only_speech_output
    (s : ChatState) (m reply : String) (f : SpeakFinish)
    (h1 : jsTrim m ≠ "") (h2 : s.processing = false)
    (h3 : s.lastProcessedMessage ≠ messageKeyOf m) (hr : reply ≠ "") :
    (∀ b : Bool, Event.onResponse reply ∈
      (processUserMessage { s with isMuted := b } m
        (CompletionResult.ok reply) f).2) ∧
    (s.isMuted = true →
      (processUserMessage s m (CompletionResult.ok reply) f).2
        = [Event.onUserMessage (jsTrim m), Event.onResponse reply,
           Event.onSpeakingComplete]
            ++ (if s.isListening then [Event.resumeCapture] else []) ∧
      (∀ t, Event.speakStart t ∉
        (processUserMessage s m (CompletionResult.ok reply) f).2) ∧
      (processUserMessage s m (CompletionResult.ok reply) f).2.count
          Event.onSpeakingComplete = 1) ∧
    (s.isMuted = false →
      Event.cancelSpeech ∈
        (processUserMessage s m (CompletionResult.ok reply)
          SpeakFinish.cancelledByMute).2 ∧
      (processUserMessage s m (CompletionResult.ok reply)
          SpeakFinish.cancelledByMute).2.count Event.onSpeakingComplete = 1 ∧
      (processUserMessage s m (CompletionResult.ok reply)
          SpeakFinish.cancelledByMute).1.isMuted = true ∧
      (processUserMessage s m (CompletionResult.ok reply)
          SpeakFinish.natural).2.count Event.onSpeakingComplete = 1) := by
  refine ⟨?_, ?_, ?_⟩
  · intro b
    cases b with
    | true =>
        rw [pum_ok_muted_eq { s with isMuted := true } m reply f h1 h2 h3 hr rfl]
        simp
    | false =>
        cases f with
        | natural =>
            rw [pum_ok_natural_eq { s with isMuted := false } m reply h1 h2 h3 hr rfl]
            simp
        | cancelledByMute =>
            rw [pum_ok_cancel_eq { s with isMuted := false } m reply h1 h2 h3 hr rfl]
            simp
  · intro hm
    rw [pum_ok_muted_eq s m reply f h1 h2 h3 hr hm]
    refine ⟨rfl, ?_, ?_⟩ <;>
      (by_cases hl : s.isListening <;> simp [hl])
  · intro hm
    rw [pum_ok_cancel_eq s m reply h1 h2 h3 hr hm,
        pum_ok_natural_eq s m reply h1 h2 h3 hr hm]
    refine ⟨?_, ?_, rfl, ?_⟩ <;>
      (by_cases hl : s.isListening <;> simp [hl])

theorem mute_affects_only_speech_output_witness :
    Event.onResponse "Hi!" ∈
      (processUserMessage { baseState with isMuted := true } "Hello"
        (CompletionResult.ok "Hi!") SpeakFinish.natural).2 ∧
    Event.cancelSpeech ∈
      (processUserMessage baseState "Hello" (CompletionResult.ok "Hi!")
        SpeakFinish.cancelledByMute).2 ∧
    (processUserMessage baseState "Hello" (CompletionResult.ok "Hi!")
        SpeakFinish.cancelledByMute).2.count Event.onSpeakingComplete = 1 :=
  ⟨(mute_affects_only_speech_output baseState "Hello" "Hi!" SpeakFinish.natural
      (by decide) rfl (by decide) (by decide)).1 true,
   ((mute_affects_only_speech_output baseState "Hello" "Hi!" SpeakFinish.natural
      (by decide) rfl (by decide) (by decide)).2.2 rfl).1,
   ((mute_affects_only_speech_output baseState "Hello" "Hi!" SpeakFinish.natural
      (by decide) rfl (by decide) (by decide)).2.2 rfl).2.1⟩

/-- C8: an accepted, non-duplicate utterance whose completion returns a
non-empty reply distinct from the immediately prior assistant entry grows the
history by exactly two entries — the user entry then the assistant entry —
and the notifications fire in the order `onUserMessage`, `onResponse`, then
turn completion. -/
theorem successful_turn_two_appends_ordered_events
    (s : ChatState) (m reply : String) (f : SpeakFinish)
    (h1 : jsTrim m ≠ "") (h2 : s.processing = false)
    (h3 : s.lastProcessedMessage ≠ messageKeyOf m) (hr : reply ≠ "")
    (_hprior : ∀ lastMessage, s.conversationHistory.getLast? = some lastMessage →
       ¬(lastMessage.role = "assistant" ∧ lastMessage.content = reply)) :
    (processUserMessage s m (CompletionResult.ok reply) f).1.conversationHistory
      = s.conversationHistory ++ [⟨"user", jsTrim m⟩, ⟨"assistant", reply⟩] ∧
    List.Sublist
      [Event.onUserMessage (jsTrim m), Event.onResponse reply,
       Event.onSpeakingComplete]
      (processUserMessage s m (CompletionResult.ok reply) f).2 := by
  by_cases hm : s.isMuted = true
  · rw [pum_ok_muted_eq s m reply f h1 h2 h3 hr hm]
    exact ⟨rfl, List.sublist_append_left _ _⟩
  · have hm' : s.isMuted = false := by simpa using hm
    cases f with
    | natural =>
        rw [pum_ok_natural_eq s m reply h1 h2 h3 hr hm']
        refine ⟨rfl, ?_⟩
        simp only [List.append_assoc, List.cons_append, List.nil_append]
        exact List.Sublist.cons₂ _ (List.Sublist.cons₂ _
          (List.Sublist.cons _ (List.sublist_append_right _ _)))
    | cancelledByMute =>
        rw [pum_ok_cancel_eq s m reply h1 h2 h3 hr hm']
        refine ⟨rfl, ?_⟩
        simp only [List.append_assoc, List.cons_append, List.nil_append]
        exact List.Sublist.cons₂ _ (List.Sublist.cons₂ _ (List.Sublist.cons _
          (((List.Sublist.refl _).cons _).trans
            (List.sublist_append_right _ _))))

theorem successful_turn_two_appends_ordered_events_witness :
    (processUserMessage baseState "hello there"
        (CompletionResult.ok "Hi! How's your day going?")
        SpeakFinish.natural).1.conversationHistory
      = baseState.conversationHistory
          ++ [⟨"user", "hello there"⟩,
              ⟨"assistant", "Hi! How's your day going?"⟩] ∧
    List.Sublist
      [Event.onUserMessage "hello there",
       Event.onResponse "Hi! How's your day going?", Event.onSpeakingComplete]
      (processUserMessage baseState "hello there"
        (CompletionResult.ok "Hi! How's your day going?")
        SpeakFinish.natural).2 :=
  successful_turn_two_appends_ordered_events baseState "hello there"
    "Hi! How's your day going?" SpeakFinish.natural
    (by decide) rfl (by decide) (by decide) (by decide)

/-- C7: the conversation history invariant: session start sets the history to
exactly the single SYSTEM entry built from the user identity, and every
orchestrator operation only appends — the prior history is always a prefix of
the new one (hence the first entry, once set, is never reordered, rewritten
or truncated), while the listening and mute commands never touch the history
at all. -/
theorem history_system_first_append_only :
    (∀ u g, (sessionInit u g).conversationHistory
        = [⟨"system", systemPrompt u g⟩]) ∧
    (∀ s m r f, s.conversationHistory <+:
        (processUserMessage s m r f).1.conversationHistory) ∧
    (∀ (s : ChatState) uN fin, s.conversationHistory ≠ [] →
        s.conversationHistory <+:
          (sendInitialGreeting s uN fin).1.conversationHistory) ∧
    (∀ s m r f, s.conversationHistory ≠ [] →
        (processUserMessage s m r f).1.conversationHistory.head?
          = s.conversationHistory.head?) ∧
    (∀ s : ChatState,
        (startListening s).conversationHistory = s.conversationHistory ∧
        (stopListening s).1.conversationHistory = s.conversationHistory ∧
        (muteAudio s).1.conversationHistory = s.conversationHistory ∧
        (unmuteAudio s).1.conversationHistory = s.conversationHistory) := by
  refine ⟨fun u g => rfl, pum_history_extends, ?_, ?_, ?_⟩
  · intro s uN fin hne
    have hlen : 0 < s.conversationHistory.length := List.length_pos.mpr hne
    unfold sendInitialGreeting
    by_cases hm : s.isMuted <;> cases fin <;>
      simp [hm, hlen, startListening_history]
  · intro s m r f hne
    exact head?_eq_of_isPrefix (pum_history_extends s m r f) hne
  · intro s
    refine ⟨startListening_history s, ?_, rfl, rfl⟩
    unfold stopListening
    by_cases h : s.isListening <;> simp [h]

theorem history_system_first_append_only_witness :
    (sessionInit "Alex" "male").conversationHistory
      = [⟨"system", systemPrompt "Alex" "male"⟩] ∧
    baseState.conversationHistory <+:
      (sendInitialGreeting baseState "Alex"
        SpeakFinish.natural).1.conversationHistory :=
  ⟨history_system_first_append_only.1 "Alex" "male",
   history_system_first_append_only.2.2.1 baseState "Alex" SpeakFinish.natural
     (by decide)⟩

/-- C6 (refuted by the code): the spec requires capture to be suspended while
a turn is in flight, but no orchestrator operation ever invokes
`DeepgramService.pauseListening` — the recorder of any `processUserMessage`
result is either the input recorder or `resumeListening` of it, neither of
which is ever `paused` when the input was not; concretely, a turn accepted
while listening with a recording recorder leaves the recorder `recording`
throughout, and the turn's trace holds no pause action — even though
`pauseListening` (which suspension would use) exists and would pause a
recording recorder. -/
theorem capture_not_suspended_during_turn :
    (processUserMessage baseState "hello there"
        (CompletionResult.ok "Hi! How's your day going?")
        SpeakFinish.natural).1.recorder = RecorderState.recording ∧
    (∀ (st : ChatState) (m : String) (r : CompletionResult) (f : SpeakFinish),
       (processUserMessage st m r f).1.recorder = st.recorder ∨
       (processUserMessage st m r f).1.recorder = resumeListening st.recorder) ∧
    pauseListening RecorderState.recording = RecorderState.paused := by
  refine ⟨by decide, ?_, by decide⟩
  intro st m r f
  by_cases hacc : accepts st m
  · obtain ⟨h1, h2, h3⟩ := hacc
    cases r with
    | err =>
        rw [pum_err_eq st m f h1 h2 h3]
        by_cases hl : st.isListening
        · right; simp [hl]
        · left; simp [hl]
    | ok reply =>
        by_cases he : reply = ""
        · subst he
          rw [pum_ok_empty_eq st m f h1 h2 h3]
          by_cases hl : st.isListening
          · right; simp [hl]
          · left; simp [hl]
        · by_cases hm : st.isMuted = true
          · rw [pum_ok_muted_eq st m reply f h1 h2 h3 he hm]
            by_cases hl : st.isListening
            · right; simp [hl]
            · left; simp [hl]
          · have hm' : st.isMuted = false := by simpa using hm
            cases f with
            | natural =>
                rw [pum_ok_natural_eq st m reply h1 h2 h3 he hm']
                by_cases hl : st.isListening
                · right; simp [hl]
                · left; simp [hl]
            | cancelledByMute =>
                rw [pum_ok_cancel_eq st m reply h1 h2 h3 he hm']
                by_cases hl : st.isListening
                · right; simp [hl]
                · left; simp [hl]
  · left
    rw [pum_noop st m r f hacc]

/-- While the underlying attempt is pending and initialization has not
succeeded, every further `initializeIfNeeded` call merely joins the waiters
of the cached promise: no state changes besides the waiting list. -/
theorem initRun_calls_while_pending (s : InitState) (a : Nat) (cs : List Nat)
    (hinit : s.isInitialized = false) (hp : s.pendingAttempt = some a) :
    initRun s (cs.map InitStep.call) = { s with waiting := s.waiting ++ cs } := by
  induction cs generalizing s with
  | nil => simp [initRun]
  | cons c cs ih =>
      have hstep : initStep s (InitStep.call c)
          = { s with waiting := s.waiting ++ [c] } := by
        simp [initStep, hinit, hp]
      have : initRun s ((c :: cs).map InitStep.call)
          = initRun { s with waiting := s.waiting ++ [c] } (cs.map InitStep.call) := by
        simp [initRun, hstep]
      rw [this, ih { s with waiting := s.waiting ++ [c] } hinit hp]
      simp

/-- C3: `initializeIfNeeded` shares one underlying connection attempt among
any number of interleaved callers: starting from a fresh session, any
non-empty burst of calls performs exactly one `deepgram.initialize()`
attempt and registers every caller as a waiter; when that single attempt
settles, all of them observe the same outcome; a success sets the connected
signal and the initialized flag; a failure discards the cached attempt
(leaving the session uninitialized) so that the next call starts a fresh,
second attempt; and in general no call made while an attempt is pending or
initialization has succeeded ever starts a new attempt. -/
theorem single_connection_attempt_shared (cs : List Nat) (c' : Nat) (ok : Bool)
    (hcs : cs ≠ []) :
    (initRun initState0 (cs.map InitStep.call)).attemptCount = 1 ∧
    (initRun initState0 (cs.map InitStep.call)).waiting = cs ∧
    (initStep (initRun initState0 (cs.map InitStep.call))
        (InitStep.settle ok)).observed = cs.map (fun c => (c, ok)) ∧
    (ok = true →
      (initStep (initRun initState0 (cs.map InitStep.call))
          (InitStep.settle ok)).isConnected = true ∧
      (initStep (initRun initState0 (cs.map InitStep.call))
          (InitStep.settle ok)).isInitialized = true) ∧
    (ok = false →
      (initStep (initRun initState0 (cs.map InitStep.call))
          (InitStep.settle ok)).pendingAttempt = none ∧
      (initStep (initRun initState0 (cs.map InitStep.call))
          (InitStep.settle ok)).isInitialized = false ∧
      (initStep (initStep (initRun initState0 (cs.map InitStep.call))
          (InitStep.settle ok)) (InitStep.call c')).attemptCount = 2) ∧
    (∀ (s : InitState) (c : Nat), s.pendingAttempt.isSome ∨ s.isInitialized = true →
      (initStep s (InitStep.call c)).attemptCount = s.attemptCount) := by
  obtain ⟨c0, cs', rfl⟩ : ∃ c0 cs', cs = c0 :: cs' := by
    cases cs with
    | nil => exact absurd rfl hcs
    | cons c0 cs' => exact ⟨c0, cs', rfl⟩
  have hfirst : initStep initState0 (InitStep.call c0)
      = { initState0 with pendingAttempt := some 0, attemptCount := 1,
                          waiting := [c0] } := by
    simp [initStep, initState0]
  have hrun : initRun initState0 ((c0 :: cs').map InitStep.call)
      = { initState0 with pendingAttempt := some 0, attemptCount := 1,
                          waiting := c0 :: cs' } := by
    have : initRun initState0 ((c0 :: cs').map InitStep.call)
        = initRun { initState0 with pendingAttempt := some 0, attemptCount := 1,
                                    waiting := [c0] } (cs'.map InitStep.call) := by
      simp [initRun, hfirst]
    rw [this, initRun_calls_while_pending _ 0 cs' rfl rfl]
    simp
  rw [hrun]
  refine ⟨rfl, rfl, ?_, ?_, ?_, ?_⟩
  · cases ok <;> simp [initStep, initState0]
  · intro h
    subst h
    exact ⟨rfl, rfl⟩
  · intro h
    subst h
    refine ⟨rfl, rfl, ?_⟩
    simp [initStep, initState0]
  · intro s c h
    cases hp : s.pendingAttempt with
    | some a =>
        by_cases hi : s.isInitialized <;> simp [initStep, hp, hi]
    | none =>
        have hi : s.isInitialized = true := by
          rcases h with h | h
          · rw [hp] at h
            exact absurd h (by simp)
          · exact h
        simp [initStep, hi]

theorem single_connection_attempt_shared_witness :
    (initRun initState0 ([7, 8, 9].map InitStep.call)).attemptCount = 1 ∧
    (initStep (initRun initState0 ([7, 8, 9].map InitStep.call))
        (InitStep.settle false)).observed
      = [(7, false), (8, false), (9, false)] ∧
    (initStep (initStep (initRun initState0 ([7, 8, 9].map InitStep.call))
        (InitStep.settle false)) (InitStep.call 4)).attemptCount = 2 :=
  ⟨(single_connection_attempt_shared [7, 8, 9] 4 false (by decide)).1,
   (single_connection_attempt_shared [7, 8, 9] 4 false (by decide)).2.2.1,
   ((single_connection_attempt_shared [7, 8, 9] 4 false (by decide)).2.2.2.2.1
      rfl).2.2⟩
